import Mathlib

/-!
# MIF byte stream (`drivers/misc/samsung/scsc/mifstream.c`)

A shallow embedding of the stream channel of `mifstream.c`: `mif_stream_init`,
`mif_stream_release`, `mif_stream_read`, `mif_stream_peek`,
`mif_stream_peek_complete`, `mif_stream_write` and `mif_stream_write_gather`.

The stream is written against three collaborators whose code lives in other
files of the driver (`cpacketbuffer.c`, `mifintrbit.c`, the `scsc_mif_abs`
hardware abstraction).  The packet buffer is taken as a parameter (a record of
functions, `cpacketbuffer_ops`), the interrupt bit allocator is modelled from
its interface, and every call the stream makes to a collaborator is recorded,
in order, in `World.calls`.
-/

namespace MifStream

/-! ## Data model -/

/-- Values of `enum scsc_mif_abs_target`.  The source names three enumerators;
every other enumerator of the (absent) header is `other v`. -/
inductive scsc_mif_abs_target where
  | SCSC_MIF_ABS_TARGET_WPAN
  | SCSC_MIF_ABS_TARGET_FXM_1
  | SCSC_MIF_ABS_TARGET_FXM_2
  | other (v : Nat)
deriving DecidableEq, Repr

/-- Values of `enum MIF_STREAM_DIRECTION` as the `switch` of `mif_stream_init`
sees them: the two recognised enumerators, and any other integer value
(`unrecognised v`), which takes the `default:` branch. -/
inductive MIF_STREAM_DIRECTION where
  | MIF_STREAM_DIRECTION_IN
  | MIF_STREAM_DIRECTION_OUT
  | unrecognised (v : Nat)
deriving DecidableEq, Repr

/-- Values of `enum MIF_STREAM_INTRBIT_TYPE`: the source compares with
`MIF_STREAM_INTRBIT_TYPE_RESERVED` only, every other value takes the dynamic
allocation branch. -/
inductive MIF_STREAM_INTRBIT_TYPE where
  | MIF_STREAM_INTRBIT_TYPE_RESERVED
  | MIF_STREAM_INTRBIT_TYPE_ALLOC
deriving DecidableEq, Repr

open scsc_mif_abs_target MIF_STREAM_DIRECTION MIF_STREAM_INTRBIT_TYPE

/-- A non-null `struct scsc_mx *`, identified by its address. -/
structure scsc_mx where
  addr : Nat
deriving DecidableEq, Repr

/-- Build configuration and constants of headers that are not part of the
source file.  `IS_ENABLED(CONFIG_SCSC_INDEPENDENT_SUBSYSTEM)` and
`defined(CONFIG_SCSC_INDEPENDENT_SUBSYSTEM)` (line 127) are the same boolean
option.  `MIFINTRBIT_RESERVED_PANIC_WLAN` is declared in `mifintrbit.h`. -/
structure Config where
  CONFIG_SCSC_INDEPENDENT_SUBSYSTEM : Bool
  CONFIG_SCSC_MX450_GDB_SUPPORT : Bool
  MIFINTRBIT_RESERVED_PANIC_WLAN : Int
deriving DecidableEq, Repr

/-- The errno value behind `-EINVAL`. -/
def EINVAL : Int := 22

/-- The fields of `struct cpacketbuffer` that `mifstream.c` touches directly
(`target`, `mx`, and the memory `buffer` points to, as the byte at each offset
from the pointer) together with the remaining fields `priv`, which only the
`cpacketbuffer_*` functions use. -/
structure cpacketbuffer (β : Type) where
  buffer : Nat → Nat
  mx : Option scsc_mx
  target : scsc_mif_abs_target
  priv : β

/-- Modelled from the spec: the packet buffer functions of `cpacketbuffer.c`,
which is not part of the source, at their interface (spec §6): `init` returns
0 or an error code, `write` and `write_gather` return whether the packet was
stored, `read` returns the number of bytes copied out (and those bytes),
`peek` returns the next packet or NULL. -/
structure cpacketbuffer_ops (β : Type) where
  cpacketbuffer_init : cpacketbuffer β → Nat → Nat → scsc_mx → Int × cpacketbuffer β
  cpacketbuffer_release : cpacketbuffer β → cpacketbuffer β
  cpacketbuffer_write : cpacketbuffer β → List Nat → Nat → Bool × cpacketbuffer β
  cpacketbuffer_write_gather :
    cpacketbuffer β → List (List Nat) → List Nat → Nat → Bool × cpacketbuffer β
  cpacketbuffer_read : cpacketbuffer β → Nat → Nat × List Nat × cpacketbuffer β
  cpacketbuffer_peek : cpacketbuffer β → Option Nat → Option Nat
  cpacketbuffer_peek_complete : cpacketbuffer β → Option Nat → cpacketbuffer β

/-- The `struct mif_stream` fields used by `mifstream.c`.  The bit indices hold
the index the allocator returned (the header that declares their width is not
part of the source); `peer` holds the target value cast to
`enum MIF_STREAM_PEER` (the cast keeps the value); `target` is the field that
exists under `CONFIG_SCSC_INDEPENDENT_SUBSYSTEM`; `mx` is a nullable pointer. -/
structure mif_stream (β : Type) where
  buffer : cpacketbuffer β
  peer : scsc_mif_abs_target
  read_bit_idx : Int
  write_bit_idx : Int
  direction : MIF_STREAM_DIRECTION
  mx : Option scsc_mx
  target : scsc_mif_abs_target

/-! ## Interrupt bit allocator -/

/-- Modelled from the spec: one namespace of doorbell bits of the interrupt bit
allocator (`mifintrbit.c`, not part of the source): the indices it manages
dynamically (`all`) and those currently handed out (`taken`). -/
structure bitpool where
  all : List Nat
  taken : List Nat
deriving DecidableEq, Repr

/-- The free bits of a namespace: managed and not handed out. -/
def bitpool.free_bits (p : bitpool) : List Nat :=
  p.all.filter (fun b => decide (b ∉ p.taken))

/-- Modelled from the spec: allocation from a namespace (`index | error`,
spec §6).  The first free index is handed out; with no free index the result
is a negative error code and the namespace is unchanged. -/
def bitpool.alloc (p : bitpool) : Int × bitpool :=
  match p.free_bits with
  | [] => (-5, p)
  | b :: _ => ((b : Int), { p with taken := b :: p.taken })

/-- Modelled from the spec: free of an index (spec §6).  A managed index goes
back to the namespace, whoever frees it; an index the namespace does not
manage leaves the namespace unchanged. -/
def bitpool.free (p : bitpool) (which_bit : Int) : bitpool :=
  if 0 ≤ which_bit ∧ which_bit.toNat ∈ p.all then
    { p with taken := p.taken.erase which_bit.toNat }
  else p

/-- Modelled from the spec: one instance of the interrupt bit allocator
(`struct mifintrbit`): the toward-host namespace and the toward-remote
namespaces, selected by the optional `target` argument of
`mifintrbit_alloc_fromhost` / `mifintrbit_free_fromhost`. -/
structure mifintrbit where
  tohost : bitpool
  fromhost : Option scsc_mif_abs_target → bitpool

/-- Which allocator instance of the link a call addresses:
`scsc_mx_get_intrbit(mx)` or `scsc_mx_get_intrbit_wpan(mx)`. -/
inductive intr_instance where
  | wlan
  | wpan
deriving DecidableEq, Repr

/-- One call from the stream to a collaborator, with its arguments (and its
result where the stream uses it). -/
inductive Call where
  | cpacketbuffer_init (num_packets packet_size : Nat) (ret : Int)
  | cpacketbuffer_release
  | cpacketbuffer_write (num_bytes : Nat) (ret : Bool)
  | cpacketbuffer_write_gather (num_bufs : Nat) (ret : Bool)
  | cpacketbuffer_read (num_bytes : Nat) (ret : Nat)
  | cpacketbuffer_peek_complete (packet : Option Nat)
  | mifintrbit_alloc_tohost (intr : intr_instance) (handler data : Nat) (ret : Int)
  | mifintrbit_free_tohost (intr : intr_instance) (which_bit : Int)
  | mifintrbit_alloc_fromhost (intr : intr_instance)
      (target : Option scsc_mif_abs_target) (ret : Int)
  | mifintrbit_free_fromhost (intr : intr_instance) (which_bit : Int)
      (target : Option scsc_mif_abs_target)
  | memset (c n : Nat)
  | smp_wmb
  | irq_bit_set (bit_num : Int) (target : scsc_mif_abs_target)
deriving DecidableEq, Repr

/-- The state behind the link context `mx`: its two allocator instances, and
the calls made so far (oldest first). -/
structure World where
  intrbit : mifintrbit
  intrbit_wpan : mifintrbit
  calls : List Call

/-- Append a call to the record. -/
def World.log (w : World) (c : Call) : World :=
  { w with calls := w.calls ++ [c] }

/-- The allocator instance a selector stands for. -/
def World.intr (w : World) : intr_instance → mifintrbit
  | .wlan => w.intrbit
  | .wpan => w.intrbit_wpan

/-- Store an allocator instance back. -/
def World.set_intr (w : World) (i : intr_instance) (m : mifintrbit) : World :=
  match i with
  | .wlan => { w with intrbit := m }
  | .wpan => { w with intrbit_wpan := m }

/-- Modelled from the spec: `mifintrbit_alloc_tohost(intr, handler, data)`. -/
def mifintrbit_alloc_tohost (w : World) (i : intr_instance) (handler data : Nat) :
    Int × World :=
  let a := (w.intr i).tohost.alloc
  (a.1, (w.set_intr i { w.intr i with tohost := a.2 }).log
    (.mifintrbit_alloc_tohost i handler data a.1))

/-- Modelled from the spec: `mifintrbit_free_tohost(intr, which_bit)`. -/
def mifintrbit_free_tohost (w : World) (i : intr_instance) (which_bit : Int) : World :=
  (w.set_intr i { w.intr i with tohost := (w.intr i).tohost.free which_bit }).log
    (.mifintrbit_free_tohost i which_bit)

/-- Modelled from the spec: `mifintrbit_alloc_fromhost(intr[, target])`. -/
def mifintrbit_alloc_fromhost (w : World) (i : intr_instance)
    (target : Option scsc_mif_abs_target) : Int × World :=
  let a := ((w.intr i).fromhost target).alloc
  (a.1, (w.set_intr i
      { w.intr i with fromhost := Function.update (w.intr i).fromhost target a.2 }).log
    (.mifintrbit_alloc_fromhost i target a.1))

/-- Modelled from the spec: `mifintrbit_free_fromhost(intr, which_bit[, target])`. -/
def mifintrbit_free_fromhost (w : World) (i : intr_instance) (which_bit : Int)
    (target : Option scsc_mif_abs_target) : World :=
  (w.set_intr i
      { w.intr i with
        fromhost := Function.update (w.intr i).fromhost target
          (((w.intr i).fromhost target).free which_bit) }).log
    (.mifintrbit_free_fromhost i which_bit target)

/-! ## The stream channel (`mifstream.c`) -/

/-- The allocator instance `mif_stream_init` (lines 41-52) and
`mif_stream_release` (lines 127-134) look up for a target: the WPAN instance
for the WPAN target under `CONFIG_SCSC_INDEPENDENT_SUBSYSTEM`, the WLAN
instance otherwise. -/
def select_intr (cfg : Config) (target : scsc_mif_abs_target) : intr_instance :=
  if cfg.CONFIG_SCSC_INDEPENDENT_SUBSYSTEM then
    if target = SCSC_MIF_ABS_TARGET_WPAN then .wpan else .wlan
  else .wlan

/-- The `target` argument of the fromhost allocator calls: passed only when
`CONFIG_SCSC_INDEPENDENT_SUBSYSTEM` is off (lines 81-85, 108-112, 137-148). -/
def fromhost_target (cfg : Config) (target : scsc_mif_abs_target) :
    Option scsc_mif_abs_target :=
  if cfg.CONFIG_SCSC_INDEPENDENT_SUBSYSTEM then none else some target

/-- The pre-reserved bit `mif_stream_init` assigns for a target (lines 72-79). -/
def reserved_bit (cfg : Config) (target : scsc_mif_abs_target) : Int :=
  if target = SCSC_MIF_ABS_TARGET_FXM_1 then cfg.MIFINTRBIT_RESERVED_PANIC_WLAN
  else if cfg.CONFIG_SCSC_MX450_GDB_SUPPORT = true ∧ target = SCSC_MIF_ABS_TARGET_FXM_2 then
    cfg.MIFINTRBIT_RESERVED_PANIC_WLAN
  else cfg.MIFINTRBIT_RESERVED_PANIC_WLAN

/-- The target the I/O functions pass to `irq_bit_set`: `stream->target` under
`CONFIG_SCSC_INDEPENDENT_SUBSYSTEM`, `stream->peer` cast back otherwise. -/
def irq_target {β : Type} (cfg : Config) (stream : mif_stream β) : scsc_mif_abs_target :=
  if cfg.CONFIG_SCSC_INDEPENDENT_SUBSYSTEM then stream.target else stream.peer

/-- The C library `memset(p, c, n)` on the memory at `p`: the first `n` bytes
become `(unsigned char)c`. -/
def memset (p : Nat → Nat) (c n : Nat) : Nat → Nat :=
  fun i => if i < n then c % 256 else p i

/-- Lines 33-35 of `mif_stream_init`: under
`CONFIG_SCSC_INDEPENDENT_SUBSYSTEM` the target is stored in the buffer. -/
def set_buffer_target {β : Type} (cfg : Config) (stream : mif_stream β)
    (target : scsc_mif_abs_target) : mif_stream β :=
  if cfg.CONFIG_SCSC_INDEPENDENT_SUBSYSTEM then
    { stream with buffer := { stream.buffer with target := target } }
  else stream

/-- Line 49 of `mif_stream_init`: under `CONFIG_SCSC_INDEPENDENT_SUBSYSTEM`
the target is stored in the stream. -/
def set_stream_target {β : Type} (cfg : Config) (stream : mif_stream β)
    (target : scsc_mif_abs_target) : mif_stream β :=
  if cfg.CONFIG_SCSC_INDEPENDENT_SUBSYSTEM then { stream with target := target }
  else stream

/-- The function `mif_stream_init` (lines 27-118).  `mx` is a valid pointer;
`num_packets` and `packet_size` are `uint32_t`, so the byte count of the
`memset` is their product modulo `2^32`.  Returns the `int` result, the
stream and the world. -/
def mif_stream_init {β : Type} (E : cpacketbuffer_ops β) (cfg : Config)
    (stream : mif_stream β) (w : World) (target : scsc_mif_abs_target)
    (direction : MIF_STREAM_DIRECTION) (num_packets packet_size : Nat) (mx : scsc_mx)
    (intrbit : MIF_STREAM_INTRBIT_TYPE) (tohost_irq_handler data : Nat) :
    Int × mif_stream β × World :=
  let stream1 : mif_stream β := { set_buffer_target cfg stream target with mx := some mx }
  let r := E.cpacketbuffer_init stream1.buffer num_packets packet_size mx
  let stream2 : mif_stream β := { stream1 with buffer := r.2 }
  let w1 := w.log (.cpacketbuffer_init num_packets packet_size r.1)
  if r.1 ≠ 0 then (r.1, stream2, w1)
  else
    let intr := select_intr cfg target
    let stream3 : mif_stream β := set_stream_target cfg stream2 target
    let r1 := mifintrbit_alloc_tohost w1 intr tohost_irq_handler data
    if r1.1 < 0 then
      (r1.1, { stream3 with buffer := E.cpacketbuffer_release stream3.buffer },
        r1.2.log .cpacketbuffer_release)
    else
      let r2 : Int × World :=
        if intrbit = MIF_STREAM_INTRBIT_TYPE_RESERVED then (reserved_bit cfg target, r1.2)
        else mifintrbit_alloc_fromhost r1.2 intr (fromhost_target cfg target)
      if r2.1 < 0 then
        (r2.1, { stream3 with buffer := E.cpacketbuffer_release stream3.buffer },
          mifintrbit_free_tohost (r2.2.log .cpacketbuffer_release) intr r1.1)
      else
        match direction with
        | MIF_STREAM_DIRECTION_OUT =>
          (0, { stream3 with
                read_bit_idx := r1.1, write_bit_idx := r2.1,
                direction := direction, peer := target }, r2.2)
        | MIF_STREAM_DIRECTION_IN =>
          let n := (num_packets * packet_size) % 2 ^ 32
          (0, { stream3 with
                buffer := { stream3.buffer with buffer := memset stream3.buffer.buffer 0xff n },
                read_bit_idx := r2.1, write_bit_idx := r1.1,
                direction := direction, peer := target },
            (r2.2.log (.memset 0xff n)).log .smp_wmb)
        | unrecognised _ =>
          (-EINVAL, { stream3 with buffer := E.cpacketbuffer_release stream3.buffer },
            mifintrbit_free_fromhost
              (mifintrbit_free_tohost (r2.2.log .cpacketbuffer_release) intr r1.1)
              intr r2.1 (fromhost_target cfg target))

/-- The function `mif_stream_release` (lines 120-153). -/
def mif_stream_release {β : Type} (E : cpacketbuffer_ops β) (cfg : Config)
    (stream : mif_stream β) (w : World) : mif_stream β × World :=
  match stream.mx with
  | none => (stream, w)
  | some _ =>
    let intr := select_intr cfg stream.target
    let w1 :=
      if stream.direction = MIF_STREAM_DIRECTION_IN then
        mifintrbit_free_fromhost (mifintrbit_free_tohost w intr stream.write_bit_idx)
          intr stream.read_bit_idx (fromhost_target cfg stream.peer)
      else
        mifintrbit_free_fromhost (mifintrbit_free_tohost w intr stream.read_bit_idx)
          intr stream.write_bit_idx (fromhost_target cfg stream.peer)
    ({ stream with buffer := E.cpacketbuffer_release stream.buffer, mx := none },
      w1.log .cpacketbuffer_release)

/-- The function `mif_stream_read` (lines 155-171): the count, the bytes copied
to `buf`, the stream and the world; `none` when `stream->mx` is NULL, which
`scsc_mx_get_mif_abs` dereferences. -/
def mif_stream_read {β : Type} (E : cpacketbuffer_ops β) (cfg : Config)
    (stream : mif_stream β) (w : World) (num_bytes : Nat) :
    Option (Nat × List Nat × mif_stream β × World) :=
  match stream.mx with
  | none => none
  | some _ =>
    let r := E.cpacketbuffer_read stream.buffer num_bytes
    let w1 := w.log (.cpacketbuffer_read num_bytes r.1)
    let w2 :=
      if r.1 > 0 then w1.log (.irq_bit_set stream.read_bit_idx (irq_target cfg stream))
      else w1
    some (r.1, r.2.1, { stream with buffer := r.2.2 }, w2)

/-- The function `mif_stream_peek` (lines 173-176). -/
def mif_stream_peek {β : Type} (E : cpacketbuffer_ops β) (stream : mif_stream β)
    (current_packet : Option Nat) : Option Nat :=
  E.cpacketbuffer_peek stream.buffer current_packet

/-- The function `mif_stream_peek_complete` (lines 178-190); `none` when
`stream->mx` is NULL. -/
def mif_stream_peek_complete {β : Type} (E : cpacketbuffer_ops β) (cfg : Config)
    (stream : mif_stream β) (w : World) (packet : Option Nat) :
    Option (mif_stream β × World) :=
  match stream.mx with
  | none => none
  | some _ =>
    let b := E.cpacketbuffer_peek_complete stream.buffer packet
    some ({ stream with buffer := b },
      (w.log (.cpacketbuffer_peek_complete packet)).log
        (.irq_bit_set stream.read_bit_idx (irq_target cfg stream)))

/-- The function `mif_stream_write` (lines 192-207); `none` when `stream->mx`
is NULL. -/
def mif_stream_write {β : Type} (E : cpacketbuffer_ops β) (cfg : Config)
    (stream : mif_stream β) (w : World) (buf : List Nat) (num_bytes : Nat) :
    Option (Bool × mif_stream β × World) :=
  match stream.mx with
  | none => none
  | some _ =>
    let r := E.cpacketbuffer_write stream.buffer buf num_bytes
    let w1 := w.log (.cpacketbuffer_write num_bytes r.1)
    if r.1 = false then some (false, { stream with buffer := r.2 }, w1)
    else
      some (true, { stream with buffer := r.2 },
        w1.log (.irq_bit_set stream.write_bit_idx (irq_target cfg stream)))

/-- The function `mif_stream_write_gather` (lines 209-228). -/
def mif_stream_write_gather {β : Type} (E : cpacketbuffer_ops β) (cfg : Config)
    (stream : mif_stream β) (w : World) (bufs : List (List Nat)) (lengths : List Nat)
    (num_bufs : Nat) : Bool × mif_stream β × World :=
  if stream.mx = none ∨ stream.buffer.mx = none then (false, stream, w)
  else
    let r := E.cpacketbuffer_write_gather stream.buffer bufs lengths num_bufs
    let w1 := w.log (.cpacketbuffer_write_gather num_bufs r.1)
    if r.1 = false then (false, { stream with buffer := r.2 }, w1)
    else
      (true, { stream with buffer := r.2 },
        w1.log (.irq_bit_set stream.write_bit_idx (irq_target cfg stream)))

/-! ## A concrete packet buffer and link, for evaluation -/

/-- The private state of the concrete packet buffer: slot count, slot size and
the pending packets, oldest first. -/
structure fifo where
  num_packets : Nat
  packet_size : Nat
  packets : List (List Nat)
deriving DecidableEq, Repr

/-- Modelled from the spec: a packet buffer with the interface of spec §6 as a
queue of at most `num_packets` packets of at most `packet_size` bytes.  `init`
fails with `-ENOMEM` for a size that is no valid buffer size (spec §4.1): an
empty one, or one whose byte count does not fit 32 bits; `write` fails on a
full buffer or an oversized packet; `read` removes the oldest packet;
`peek_complete` of the NULL packet consumes nothing, of a packet it removes
the oldest one. -/
def fifo_ops : cpacketbuffer_ops fifo where
  cpacketbuffer_init := fun b n s mx =>
    if n = 0 ∨ s = 0 ∨ 2 ^ 32 ≤ n * s then (-12, b)
    else (0, { b with mx := some mx, priv := { num_packets := n, packet_size := s, packets := [] } })
  cpacketbuffer_release := fun b =>
    { b with mx := none, priv := { num_packets := 0, packet_size := 0, packets := [] } }
  cpacketbuffer_write := fun b data n =>
    if b.priv.packets.length < b.priv.num_packets ∧ n ≤ b.priv.packet_size then
      (true, { b with priv := { b.priv with packets := b.priv.packets ++ [data.take n] } })
    else (false, b)
  cpacketbuffer_write_gather := fun b bufs lengths n =>
    let data := ((bufs.zip lengths).take n).map (fun x => x.1.take x.2)
    if b.priv.packets.length < b.priv.num_packets ∧ data.flatten.length ≤ b.priv.packet_size then
      (true, { b with priv := { b.priv with packets := b.priv.packets ++ [data.flatten] } })
    else (false, b)
  cpacketbuffer_read := fun b n =>
    match b.priv.packets with
    | [] => (0, [], b)
    | p :: ps => ((p.take n).length, p.take n, { b with priv := { b.priv with packets := ps } })
  cpacketbuffer_peek := fun b cur =>
    match cur with
    | none => if b.priv.packets = [] then none else some 0
    | some k => if k + 1 < b.priv.packets.length then some (k + 1) else none
  cpacketbuffer_peek_complete := fun b packet =>
    match packet with
    | none => b
    | some _ => { b with priv := { b.priv with packets := b.priv.packets.tail } }

/-- A `struct mif_stream` that was never opened: NULL pointers, indices 0. -/
def zero_stream : mif_stream fifo where
  buffer :=
    { buffer := fun _ => 0, mx := none, target := other 0,
      priv := { num_packets := 0, packet_size := 0, packets := [] } }
  peer := other 0
  read_bit_idx := 0
  write_bit_idx := 0
  direction := MIF_STREAM_DIRECTION_IN
  mx := none
  target := other 0

/-- A namespace managing the indices 1, 2 and 3, none handed out. -/
def pool123 : bitpool := { all := [1, 2, 3], taken := [] }

/-- An allocator instance whose namespaces all manage the indices 1, 2, 3. -/
def intr123 : mifintrbit := { tohost := pool123, fromhost := fun _ => pool123 }

/-- A link with two fresh allocator instances and no call made yet. -/
def world0 : World := { intrbit := intr123, intrbit_wpan := intr123, calls := [] }

/-- A build without `CONFIG_SCSC_INDEPENDENT_SUBSYSTEM`, reserved bit 0. -/
def cfg0 : Config :=
  { CONFIG_SCSC_INDEPENDENT_SUBSYSTEM := false, CONFIG_SCSC_MX450_GDB_SUPPORT := false,
    MIFINTRBIT_RESERVED_PANIC_WLAN := 0 }

/-- A build with `CONFIG_SCSC_INDEPENDENT_SUBSYSTEM`, reserved bit 0. -/
def cfg1 : Config :=
  { CONFIG_SCSC_INDEPENDENT_SUBSYSTEM := true, CONFIG_SCSC_MX450_GDB_SUPPORT := true,
    MIFINTRBIT_RESERVED_PANIC_WLAN := 0 }

/-- The link context pointer of the examples. -/
def mx0 : scsc_mx := { addr := 4096 }


/-! ## Named quantities and scenarios -/

/-- The result `r1` of the toward-host allocation of `mif_stream_init`
(line 54) in a world `w`. -/
def init_r1 (cfg : Config) (w : World) (target : scsc_mif_abs_target) : Int :=
  (w.intr (select_intr cfg target)).tohost.alloc.1

/-- The toward-remote bit `r2` of `mif_stream_init` (lines 71-85) in a world
`w`: the reserved index, or the result of the toward-remote allocation. -/
def init_r2 (cfg : Config) (w : World) (target : scsc_mif_abs_target)
    (intrbit : MIF_STREAM_INTRBIT_TYPE) : Int :=
  if intrbit = MIF_STREAM_INTRBIT_TYPE_RESERVED then cfg.MIFINTRBIT_RESERVED_PANIC_WLAN
  else ((w.intr (select_intr cfg target)).fromhost (fromhost_target cfg target)).alloc.1

/-- An outbound channel of 4 slots of 64 bytes, both bits allocated. -/
def open_out : Int × mif_stream fifo × World :=
  mif_stream_init fifo_ops cfg0 zero_stream world0 (other 0)
    MIF_STREAM_DIRECTION_OUT 4 64 mx0 MIF_STREAM_INTRBIT_TYPE_ALLOC 7 8

/-- An inbound channel to the WPAN target, both bits allocated. -/
def open_in : Int × mif_stream fifo × World :=
  mif_stream_init fifo_ops cfg1 zero_stream world0 SCSC_MIF_ABS_TARGET_WPAN
    MIF_STREAM_DIRECTION_IN 4 64 mx0 MIF_STREAM_INTRBIT_TYPE_ALLOC 7 8

/-- An outbound channel that asks for the reserved bit. -/
def open_reserved : Int × mif_stream fifo × World :=
  mif_stream_init fifo_ops cfg0 zero_stream world0 SCSC_MIF_ABS_TARGET_FXM_1
    MIF_STREAM_DIRECTION_OUT 4 64 mx0 MIF_STREAM_INTRBIT_TYPE_RESERVED 7 8

/-- An open whose packet buffer init fails (no slots). -/
def failed_open : Int × mif_stream fifo × World :=
  mif_stream_init fifo_ops cfg0 zero_stream world0 (other 0)
    MIF_STREAM_DIRECTION_OUT 0 64 mx0 MIF_STREAM_INTRBIT_TYPE_ALLOC 7 8

/-- An open with an unrecognised direction that asks for the reserved bit. -/
def bad_direction_reserved : Int × mif_stream fifo × World :=
  mif_stream_init fifo_ops cfg1 zero_stream world0 SCSC_MIF_ABS_TARGET_WPAN
    (unrecognised 7) 4 64 mx0 MIF_STREAM_INTRBIT_TYPE_RESERVED 7 8

/-- The outbound channel `open_out` and its world after one 3-byte packet
was written. -/
def after_write : mif_stream fifo × World :=
  match mif_stream_write fifo_ops cfg0 open_out.2.1 open_out.2.2 [1, 2, 3] 3 with
  | some x => x.2
  | none => (open_out.2.1, open_out.2.2)

/-! ## Lemmas on the models -/

/-- All three branches of lines 72-79 assign the same constant. -/
theorem reserved_bit_eq (cfg : Config) (target : scsc_mif_abs_target) :
    reserved_bit cfg target = cfg.MIFINTRBIT_RESERVED_PANIC_WLAN := by
  unfold reserved_bit
  split_ifs <;> rfl

/-- Freeing the index an allocation just handed out restores the namespace. -/
theorem bitpool_free_alloc (p : bitpool) (h : ¬ p.alloc.1 < 0) :
    p.alloc.2.free p.alloc.1 = p := by
  unfold bitpool.alloc at h ⊢
  cases hf : p.free_bits with
  | nil =>
    rw [hf] at h
    simp at h
  | cons b t =>
    have hb : b ∈ p.all := by
      have hm : b ∈ p.free_bits := by rw [hf]; exact List.mem_cons_self b t
      unfold bitpool.free_bits at hm
      exact (List.mem_filter.mp hm).1
    simp [bitpool.free, hb]

/-- The same, with the success of the allocation stated as `0 ≤ r`. -/
theorem bitpool_free_alloc_of_nonneg (p : bitpool) (h : 0 ≤ p.alloc.1) :
    p.alloc.2.free p.alloc.1 = p :=
  bitpool_free_alloc p (not_lt.mpr h)

/-- The record after one more call. -/
theorem World.log_calls (w : World) (c : Call) : (w.log c).calls = w.calls ++ [c] := rfl

/-- The bytes `memset` leaves alone. -/
theorem memset_ge (p : Nat → Nat) (c n i : Nat) (h : n ≤ i) : memset p c n i = p i := by
  unfold memset; rw [if_neg (Nat.not_lt.mpr h)]

/-- Line 36: whatever `mif_stream_init` returns, `stream->mx` holds `mx`
afterwards; no error path resets it. -/
theorem mif_stream_init_keeps_mx {β : Type} (E : cpacketbuffer_ops β) (cfg : Config)
    (stream : mif_stream β) (w : World) (target : scsc_mif_abs_target)
    (direction : MIF_STREAM_DIRECTION) (num_packets packet_size : Nat) (mx : scsc_mx)
    (intrbit : MIF_STREAM_INTRBIT_TYPE) (handler data : Nat) :
    (mif_stream_init E cfg stream w target direction num_packets packet_size mx
      intrbit handler data).2.1.mx = some mx := by
  have hmx : ∀ s : mif_stream β, (set_stream_target cfg s target).mx = s.mx := by
    intro s; unfold set_stream_target; split_ifs <;> rfl
  unfold mif_stream_init
  simp only
  split_ifs
  all_goals (try cases direction)
  all_goals simp [hmx]

/-- Lines 124-125: on a stream whose `mx` is NULL `mif_stream_release` returns
at once. -/
theorem mif_stream_release_closed {β : Type} (E : cpacketbuffer_ops β) (cfg : Config)
    (stream : mif_stream β) (w : World) (h : stream.mx = none) :
    mif_stream_release E cfg stream w = (stream, w) := by
  unfold mif_stream_release
  simp [h]

/-- Lines 126-152: on a stream whose `mx` is set `mif_stream_release` makes
its three calls with whatever indices the stream holds. -/
theorem mif_stream_release_open_calls {β : Type} (E : cpacketbuffer_ops β) (cfg : Config)
    (stream : mif_stream β) (w : World) (mx : scsc_mx) (h : stream.mx = some mx) :
    (mif_stream_release E cfg stream w).2.calls =
      w.calls ++
        [Call.mifintrbit_free_tohost (select_intr cfg stream.target)
           (if stream.direction = MIF_STREAM_DIRECTION_IN then stream.write_bit_idx
            else stream.read_bit_idx),
         Call.mifintrbit_free_fromhost (select_intr cfg stream.target)
           (if stream.direction = MIF_STREAM_DIRECTION_IN then stream.read_bit_idx
            else stream.write_bit_idx)
           (fromhost_target cfg stream.peer),
         Call.cpacketbuffer_release] := by
  unfold mif_stream_release
  simp only [h]
  split_ifs <;>
    cases select_intr cfg stream.target <;>
      simp [mifintrbit_free_tohost, mifintrbit_free_fromhost, World.log,
        World.set_intr, World.intr]

/-- After a successful `mif_stream_init` the target the I/O functions signal
is the target the channel was opened for. -/
theorem mif_stream_init_irq_target {β : Type} (E : cpacketbuffer_ops β) (cfg : Config)
    (stream : mif_stream β) (w : World) (target : scsc_mif_abs_target)
    (direction : MIF_STREAM_DIRECTION) (num_packets packet_size : Nat) (mx : scsc_mx)
    (intrbit : MIF_STREAM_INTRBIT_TYPE) (handler data : Nat)
    (hok : (mif_stream_init E cfg stream w target direction num_packets packet_size mx
      intrbit handler data).1 = 0) :
    irq_target cfg (mif_stream_init E cfg stream w target direction num_packets packet_size
      mx intrbit handler data).2.1 = target := by
  have hst : ∀ s : mif_stream β, cfg.CONFIG_SCSC_INDEPENDENT_SUBSYSTEM = true →
      (set_stream_target cfg s target).target = target := by
    intro s h; unfold set_stream_target; rw [if_pos h]
  unfold mif_stream_init at hok ⊢
  simp only at hok ⊢
  split_ifs at hok ⊢ with h1 h2 h3 h4 h5
  · exact absurd hok h1
  · simp only at hok; omega
  · simp only at hok; omega
  · cases direction with
    | MIF_STREAM_DIRECTION_IN =>
      unfold irq_target; split_ifs with hc
      · exact hst _ hc
      · rfl
    | MIF_STREAM_DIRECTION_OUT =>
      unfold irq_target; split_ifs with hc
      · exact hst _ hc
      · rfl
    | unrecognised v => simp [EINVAL] at hok
  · simp only at hok; omega
  · cases direction with
    | MIF_STREAM_DIRECTION_IN =>
      unfold irq_target; split_ifs with hc
      · exact hst _ hc
      · rfl
    | MIF_STREAM_DIRECTION_OUT =>
      unfold irq_target; split_ifs with hc
      · exact hst _ hc
      · rfl
    | unrecognised v => simp [EINVAL] at hok

/-! ## Open: bit roles (C1) -/

/-- C1: after a successful `mif_stream_init`, with `r1` the bit the toward-host
allocation returned and `r2` the toward-remote bit (the reserved index, or the
bit the toward-remote allocation returned): for `MIF_STREAM_DIRECTION_IN`,
`read_bit_idx = r2` and `write_bit_idx = r1`; for `MIF_STREAM_DIRECTION_OUT`,
`read_bit_idx = r1` and `write_bit_idx = r2`; the stored direction is the
requested one.  The recorded allocator calls are the ones that returned `r1`
and (for a dynamic bit) `r2`. -/
theorem mif_stream_init_bit_roles {β : Type} (E : cpacketbuffer_ops β) (cfg : Config)
    (stream : mif_stream β) (w : World) (target : scsc_mif_abs_target)
    (direction : MIF_STREAM_DIRECTION) (num_packets packet_size : Nat) (mx : scsc_mx)
    (intrbit : MIF_STREAM_INTRBIT_TYPE) (handler data : Nat)
    (hok : (mif_stream_init E cfg stream w target direction num_packets packet_size mx
      intrbit handler data).1 = 0) :
    (direction = MIF_STREAM_DIRECTION_IN →
      (mif_stream_init E cfg stream w target direction num_packets packet_size mx
        intrbit handler data).2.1.read_bit_idx = init_r2 cfg w target intrbit ∧
      (mif_stream_init E cfg stream w target direction num_packets packet_size mx
        intrbit handler data).2.1.write_bit_idx = init_r1 cfg w target) ∧
    (direction = MIF_STREAM_DIRECTION_OUT →
      (mif_stream_init E cfg stream w target direction num_packets packet_size mx
        intrbit handler data).2.1.read_bit_idx = init_r1 cfg w target ∧
      (mif_stream_init E cfg stream w target direction num_packets packet_size mx
        intrbit handler data).2.1.write_bit_idx = init_r2 cfg w target intrbit) ∧
    (mif_stream_init E cfg stream w target direction num_packets packet_size mx
        intrbit handler data).2.1.direction = direction ∧
    (direction = MIF_STREAM_DIRECTION_IN ∨ direction = MIF_STREAM_DIRECTION_OUT) ∧
    Call.mifintrbit_alloc_tohost (select_intr cfg target) handler data
        (init_r1 cfg w target) ∈
      (mif_stream_init E cfg stream w target direction num_packets packet_size mx
        intrbit handler data).2.2.calls ∧
    (intrbit ≠ MIF_STREAM_INTRBIT_TYPE_RESERVED →
      Call.mifintrbit_alloc_fromhost (select_intr cfg target) (fromhost_target cfg target)
          (init_r2 cfg w target intrbit) ∈
        (mif_stream_init E cfg stream w target direction num_packets packet_size mx
          intrbit handler data).2.2.calls) := by
  unfold mif_stream_init at hok ⊢
  simp only at hok ⊢
  have hr1 : ∀ c, (mifintrbit_alloc_tohost (w.log c) (select_intr cfg target) handler data).1
      = init_r1 cfg w target := by
    intro c; unfold mifintrbit_alloc_tohost init_r1; cases select_intr cfg target <;> rfl
  have hr2 : ∀ c, (mifintrbit_alloc_fromhost
      (mifintrbit_alloc_tohost (w.log c) (select_intr cfg target) handler data).2
      (select_intr cfg target) (fromhost_target cfg target)).1
      = ((w.intr (select_intr cfg target)).fromhost (fromhost_target cfg target)).alloc.1 := by
    intro c; unfold mifintrbit_alloc_fromhost mifintrbit_alloc_tohost
    cases select_intr cfg target <;> rfl
  have hc1 : ∀ c, (mifintrbit_alloc_tohost (w.log c) (select_intr cfg target) handler
      data).2.calls = w.calls ++ [c] ++ [Call.mifintrbit_alloc_tohost (select_intr cfg target)
        handler data (init_r1 cfg w target)] := by
    intro c; unfold mifintrbit_alloc_tohost init_r1
    cases select_intr cfg target <;> rfl
  have hc2 : ∀ c, (mifintrbit_alloc_fromhost
      (mifintrbit_alloc_tohost (w.log c) (select_intr cfg target) handler data).2
      (select_intr cfg target) (fromhost_target cfg target)).2.calls =
      w.calls ++ [c] ++ [Call.mifintrbit_alloc_tohost (select_intr cfg target)
        handler data (init_r1 cfg w target)] ++
        [Call.mifintrbit_alloc_fromhost (select_intr cfg target) (fromhost_target cfg target)
          ((w.intr (select_intr cfg target)).fromhost (fromhost_target cfg target)).alloc.1] := by
    intro c; unfold mifintrbit_alloc_fromhost mifintrbit_alloc_tohost init_r1
    cases select_intr cfg target <;> rfl
  split_ifs at hok ⊢ with h1 h2 h3 h4 h5
  · exact absurd hok h1
  · simp only at hok; omega
  · simp only at hok; omega
  · cases direction with
    | MIF_STREAM_DIRECTION_IN => simp [hr1, hc1, init_r2, h3, reserved_bit_eq, World.log_calls]
    | MIF_STREAM_DIRECTION_OUT => simp [hr1, hc1, init_r2, h3, reserved_bit_eq, World.log_calls]
    | unrecognised v => simp [EINVAL] at hok
  · simp only at hok; omega
  · cases direction with
    | MIF_STREAM_DIRECTION_IN => simp [hr1, hr2, hc2, init_r2, h3, World.log_calls]
    | MIF_STREAM_DIRECTION_OUT => simp [hr1, hr2, hc2, init_r2, h3, World.log_calls]
    | unrecognised v => simp [EINVAL] at hok

/-- The outbound channel `open_out` opens, reads on the toward-host bit and
writes on the toward-remote bit; the inbound channel `open_in` has the two
roles swapped. -/
theorem mif_stream_init_bit_roles_witness :
    open_out.1 = 0 ∧
    (open_out.2.1.read_bit_idx = init_r1 cfg0 world0 (other 0) ∧
      open_out.2.1.write_bit_idx =
        init_r2 cfg0 world0 (other 0) MIF_STREAM_INTRBIT_TYPE_ALLOC) ∧
    open_in.1 = 0 ∧
    (open_in.2.1.read_bit_idx =
        init_r2 cfg1 world0 SCSC_MIF_ABS_TARGET_WPAN MIF_STREAM_INTRBIT_TYPE_ALLOC ∧
      open_in.2.1.write_bit_idx = init_r1 cfg1 world0 SCSC_MIF_ABS_TARGET_WPAN) :=
  ⟨by decide,
   (mif_stream_init_bit_roles fifo_ops cfg0 zero_stream world0 (other 0)
      MIF_STREAM_DIRECTION_OUT 4 64 mx0 MIF_STREAM_INTRBIT_TYPE_ALLOC 7 8 (by decide)).2.1 rfl,
   by decide,
   (mif_stream_init_bit_roles fifo_ops cfg1 zero_stream world0 SCSC_MIF_ABS_TARGET_WPAN
      MIF_STREAM_DIRECTION_IN 4 64 mx0 MIF_STREAM_INTRBIT_TYPE_ALLOC 7 8 (by decide)).1 rfl⟩

/-! ## Open: rollback on error (C2) -/

/-- C3: after a successful `mif_stream_init` with both bits allocated
dynamically, in either direction, `mif_stream_release` makes exactly three
calls, in this order: `mifintrbit_free_tohost` with the bit `r1` the
toward-host allocation of the open returned, `mifintrbit_free_fromhost` with
the bit `r2` the toward-remote allocation returned (same instance, same
target), then `cpacketbuffer_release`; both allocator instances are then
as they were before the open. -/
theorem mif_stream_release_after_init {β : Type} (E : cpacketbuffer_ops β) (cfg : Config)
    (stream : mif_stream β) (w : World) (target : scsc_mif_abs_target)
    (direction : MIF_STREAM_DIRECTION) (num_packets packet_size : Nat) (mx : scsc_mx)
    (handler data : Nat)
    (hok : (mif_stream_init E cfg stream w target direction num_packets packet_size mx
      MIF_STREAM_INTRBIT_TYPE_ALLOC handler data).1 = 0) :
    (mif_stream_init E cfg stream w target direction num_packets packet_size mx
        MIF_STREAM_INTRBIT_TYPE_ALLOC handler data).2.2.calls =
      w.calls ++
        [Call.cpacketbuffer_init num_packets packet_size 0,
         Call.mifintrbit_alloc_tohost (select_intr cfg target) handler data
           (init_r1 cfg w target),
         Call.mifintrbit_alloc_fromhost (select_intr cfg target) (fromhost_target cfg target)
           (init_r2 cfg w target MIF_STREAM_INTRBIT_TYPE_ALLOC)] ++
        (if direction = MIF_STREAM_DIRECTION_IN then
          [Call.memset 0xff ((num_packets * packet_size) % 2 ^ 32), Call.smp_wmb]
         else []) ∧
    (mif_stream_release E cfg
        (mif_stream_init E cfg stream w target direction num_packets packet_size mx
          MIF_STREAM_INTRBIT_TYPE_ALLOC handler data).2.1
        (mif_stream_init E cfg stream w target direction num_packets packet_size mx
          MIF_STREAM_INTRBIT_TYPE_ALLOC handler data).2.2).2.calls =
      (mif_stream_init E cfg stream w target direction num_packets packet_size mx
        MIF_STREAM_INTRBIT_TYPE_ALLOC handler data).2.2.calls ++
        [Call.mifintrbit_free_tohost (select_intr cfg target) (init_r1 cfg w target),
         Call.mifintrbit_free_fromhost (select_intr cfg target)
           (init_r2 cfg w target MIF_STREAM_INTRBIT_TYPE_ALLOC) (fromhost_target cfg target),
         Call.cpacketbuffer_release] ∧
    (mif_stream_release E cfg
        (mif_stream_init E cfg stream w target direction num_packets packet_size mx
          MIF_STREAM_INTRBIT_TYPE_ALLOC handler data).2.1
        (mif_stream_init E cfg stream w target direction num_packets packet_size mx
          MIF_STREAM_INTRBIT_TYPE_ALLOC handler data).2.2).2.intrbit = w.intrbit ∧
    (mif_stream_release E cfg
        (mif_stream_init E cfg stream w target direction num_packets packet_size mx
          MIF_STREAM_INTRBIT_TYPE_ALLOC handler data).2.1
        (mif_stream_init E cfg stream w target direction num_packets packet_size mx
          MIF_STREAM_INTRBIT_TYPE_ALLOC handler data).2.2).2.intrbit_wpan = w.intrbit_wpan := by
  have hsel : ∀ s : mif_stream β,
      select_intr cfg (set_stream_target cfg s target).target = select_intr cfg target := by
    intro s; unfold set_stream_target select_intr; split_ifs <;> rfl
  have hmx : ∀ s : mif_stream β, (set_stream_target cfg s target).mx = s.mx := by
    intro s; unfold set_stream_target; split_ifs <;> rfl
  unfold mif_stream_init at hok ⊢
  simp only at hok ⊢
  generalize hr : E.cpacketbuffer_init (set_buffer_target cfg stream target).buffer
    num_packets packet_size mx = r at hok ⊢
  have h1 : r.1 = 0 := by
    by_contra h
    rw [if_pos h] at hok
    exact h hok
  simp only [h1, ne_eq, not_true_eq_false, if_false, reduceCtorEq] at hok ⊢
  have h2 : ¬ (mifintrbit_alloc_tohost (w.log (Call.cpacketbuffer_init num_packets packet_size 0))
      (select_intr cfg target) handler data).1 < 0 := by
    intro h
    rw [if_pos h] at hok
    simp only at hok
    omega
  simp only [h2, if_false] at hok ⊢
  have h3 : ¬ (mifintrbit_alloc_fromhost
      (mifintrbit_alloc_tohost (w.log (Call.cpacketbuffer_init num_packets packet_size 0))
      (select_intr cfg target) handler data).2 (select_intr cfg target)
      (fromhost_target cfg target)).1 < 0 := by
    intro h
    rw [if_pos h] at hok
    simp only at hok
    omega
  simp only [h3, if_false] at hok ⊢
  generalize hi : select_intr cfg target = i at *
  generalize hk : fromhost_target cfg target = k at *
  obtain ⟨wl, wp, cs⟩ := w
  obtain ⟨th, fh⟩ := wl
  obtain ⟨th2, fh2⟩ := wp
  cases direction with
  | unrecognised v => simp [EINVAL] at hok
  | MIF_STREAM_DIRECTION_IN =>
    simp only [mif_stream_release, hmx, hsel, init_r1, init_r2, hi, hk]
    cases i <;>
      simp [mifintrbit_alloc_tohost, mifintrbit_free_tohost, mifintrbit_alloc_fromhost,
        mifintrbit_free_fromhost, World.log, World.intr, World.set_intr] at * <;>
      exact ⟨bitpool_free_alloc_of_nonneg _ h2, bitpool_free_alloc_of_nonneg _ h3⟩
  | MIF_STREAM_DIRECTION_OUT =>
    simp only [mif_stream_release, hmx, hsel, init_r1, init_r2, hi, hk]
    cases i <;>
      simp [mifintrbit_alloc_tohost, mifintrbit_free_tohost, mifintrbit_alloc_fromhost,
        mifintrbit_free_fromhost, World.log, World.intr, World.set_intr] at * <;>
      exact ⟨bitpool_free_alloc_of_nonneg _ h2, bitpool_free_alloc_of_nonneg _ h3⟩

/-- Opening `open_in` and closing it at once frees bit 1 toward the host and
bit 1 toward the remote on the WPAN instance, then releases the buffer, and
the WPAN instance is as before the open. -/
theorem mif_stream_release_after_init_witness :
    open_in.1 = 0 ∧
    (mif_stream_release fifo_ops cfg1 open_in.2.1 open_in.2.2).2.calls =
      open_in.2.2.calls ++
        [Call.mifintrbit_free_tohost (select_intr cfg1 SCSC_MIF_ABS_TARGET_WPAN)
           (init_r1 cfg1 world0 SCSC_MIF_ABS_TARGET_WPAN),
         Call.mifintrbit_free_fromhost (select_intr cfg1 SCSC_MIF_ABS_TARGET_WPAN)
           (init_r2 cfg1 world0 SCSC_MIF_ABS_TARGET_WPAN MIF_STREAM_INTRBIT_TYPE_ALLOC)
           (fromhost_target cfg1 SCSC_MIF_ABS_TARGET_WPAN),
         Call.cpacketbuffer_release] ∧
    (mif_stream_release fifo_ops cfg1 open_in.2.1 open_in.2.2).2.intrbit_wpan =
      world0.intrbit_wpan :=
  ⟨by decide,
   (mif_stream_release_after_init fifo_ops cfg1 zero_stream world0 SCSC_MIF_ABS_TARGET_WPAN
      MIF_STREAM_DIRECTION_IN 4 64 mx0 7 8 (by decide)).2.1,
   (mif_stream_release_after_init fifo_ops cfg1 zero_stream world0 SCSC_MIF_ABS_TARGET_WPAN
      MIF_STREAM_DIRECTION_IN 4 64 mx0 7 8 (by decide)).2.2.2⟩

/-! ## Close on a channel that never opened (C4) and twice (C5) -/

/-- C4: `mif_stream_release` right after a `mif_stream_init` that failed (here
at the packet buffer init, error -12) is not a no-op.  The failed init left
`stream->mx` set, so the release calls `mifintrbit_free_tohost` and
`mifintrbit_free_fromhost` with the stale indices of the stream (0 and 0) and
`cpacketbuffer_release`, and clears `stream->mx`. -/
theorem mif_stream_release_after_failed_init :
    failed_open.1 = -12 ∧
    failed_open.2.1.mx = some mx0 ∧
    failed_open.2.2.calls = [Call.cpacketbuffer_init 0 64 (-12)] ∧
    (mif_stream_release fifo_ops cfg0 failed_open.2.1 failed_open.2.2).2.calls =
      failed_open.2.2.calls ++
        [Call.mifintrbit_free_tohost intr_instance.wlan 0,
         Call.mifintrbit_free_fromhost intr_instance.wlan 0 (some (other 0)),
         Call.cpacketbuffer_release] ∧
    (mif_stream_release fifo_ops cfg0 failed_open.2.1 failed_open.2.2).1.mx = none := by
  decide

/-- C5: `mif_stream_release` is idempotent.  For every stream and world, a
second call returns the stream and the world of the first call unchanged, so
it makes no allocator free call and no packet buffer release call. -/
theorem mif_stream_release_idempotent {β : Type} (E : cpacketbuffer_ops β) (cfg : Config)
    (stream : mif_stream β) (w : World) :
    mif_stream_release E cfg (mif_stream_release E cfg stream w).1
        (mif_stream_release E cfg stream w).2 =
      mif_stream_release E cfg stream w := by
  unfold mif_stream_release
  cases h : stream.mx with
  | none => simp [h]
  | some m => simp

/-! ## Write (C6) -/

/-- C6: on an open channel `mif_stream_write` rings a doorbell exactly when it
returns true.  If `cpacketbuffer_write` fails the result is false and the only
call made is that write; if it succeeds the result is true and the write is
followed by exactly one `irq_bit_set`, with `write_bit_idx` and the target of
the channel. -/
theorem mif_stream_write_doorbell {β : Type} (E : cpacketbuffer_ops β) (cfg : Config)
    (stream : mif_stream β) (w : World) (buf : List Nat) (num_bytes : Nat) (mx : scsc_mx)
    (hopen : stream.mx = some mx) :
    ((E.cpacketbuffer_write stream.buffer buf num_bytes).1 = false →
      mif_stream_write E cfg stream w buf num_bytes =
        some (false,
          { stream with buffer := (E.cpacketbuffer_write stream.buffer buf num_bytes).2 },
          { w with calls := w.calls ++ [Call.cpacketbuffer_write num_bytes false] })) ∧
    ((E.cpacketbuffer_write stream.buffer buf num_bytes).1 = true →
      mif_stream_write E cfg stream w buf num_bytes =
        some (true,
          { stream with buffer := (E.cpacketbuffer_write stream.buffer buf num_bytes).2 },
          { w with calls := w.calls ++
              [Call.cpacketbuffer_write num_bytes true,
               Call.irq_bit_set stream.write_bit_idx (irq_target cfg stream)] })) := by
  unfold mif_stream_write
  simp only [hopen]
  constructor
  · intro h
    simp [h, World.log]
  · intro h
    simp [h, World.log]

/-- On the channel `open_out` (slots of 64 bytes) a 3-byte write succeeds with
one doorbell on the write bit, and a 65-byte write fails with no doorbell. -/
theorem mif_stream_write_doorbell_witness :
    open_out.2.1.mx = some mx0 ∧
    mif_stream_write fifo_ops cfg0 open_out.2.1 open_out.2.2 [1, 2, 3] 3 =
      some (true,
        { open_out.2.1 with
          buffer := (fifo_ops.cpacketbuffer_write open_out.2.1.buffer [1, 2, 3] 3).2 },
        { open_out.2.2 with calls := open_out.2.2.calls ++
            [Call.cpacketbuffer_write 3 true,
             Call.irq_bit_set open_out.2.1.write_bit_idx (irq_target cfg0 open_out.2.1)] }) ∧
    mif_stream_write fifo_ops cfg0 open_out.2.1 open_out.2.2 [] 65 =
      some (false,
        { open_out.2.1 with
          buffer := (fifo_ops.cpacketbuffer_write open_out.2.1.buffer [] 65).2 },
        { open_out.2.2 with calls := open_out.2.2.calls ++
            [Call.cpacketbuffer_write 65 false] }) :=
  ⟨by decide,
   (mif_stream_write_doorbell fifo_ops cfg0 open_out.2.1 open_out.2.2 [1, 2, 3] 3 mx0
      (by decide)).2 (by decide),
   (mif_stream_write_doorbell fifo_ops cfg0 open_out.2.1 open_out.2.2 [] 65 mx0
      (by decide)).1 (by decide)⟩

/-! ## Read and peek-complete (C7) -/

/-- C7, as the code has it: on an open channel `mif_stream_read` rings the
read-completion doorbell (`irq_bit_set` with `read_bit_idx` and the target of
the channel) exactly once when it returns a count above 0 and not at all when
it returns 0; `mif_stream_peek_complete` rings it exactly once on every call,
whatever `cpacketbuffer_peek_complete` did. -/
theorem mif_stream_read_peek_complete_doorbell {β : Type} (E : cpacketbuffer_ops β)
    (cfg : Config) (stream : mif_stream β) (w : World) (num_bytes : Nat)
    (packet : Option Nat) (mx : scsc_mx) (hopen : stream.mx = some mx) :
    ((E.cpacketbuffer_read stream.buffer num_bytes).1 = 0 →
      mif_stream_read E cfg stream w num_bytes =
        some (0, (E.cpacketbuffer_read stream.buffer num_bytes).2.1,
          { stream with buffer := (E.cpacketbuffer_read stream.buffer num_bytes).2.2 },
          { w with calls := w.calls ++ [Call.cpacketbuffer_read num_bytes 0] })) ∧
    (0 < (E.cpacketbuffer_read stream.buffer num_bytes).1 →
      mif_stream_read E cfg stream w num_bytes =
        some ((E.cpacketbuffer_read stream.buffer num_bytes).1,
          (E.cpacketbuffer_read stream.buffer num_bytes).2.1,
          { stream with buffer := (E.cpacketbuffer_read stream.buffer num_bytes).2.2 },
          { w with calls := w.calls ++
              [Call.cpacketbuffer_read num_bytes (E.cpacketbuffer_read stream.buffer num_bytes).1,
               Call.irq_bit_set stream.read_bit_idx (irq_target cfg stream)] })) ∧
    mif_stream_peek_complete E cfg stream w packet =
      some ({ stream with buffer := E.cpacketbuffer_peek_complete stream.buffer packet },
        { w with calls := w.calls ++
            [Call.cpacketbuffer_peek_complete packet,
             Call.irq_bit_set stream.read_bit_idx (irq_target cfg stream)] }) := by
  unfold mif_stream_read mif_stream_peek_complete
  simp only [hopen]
  refine ⟨?_, ?_, ?_⟩
  · intro h
    simp [h, World.log]
  · intro h
    simp [h, World.log]
  · simp [World.log]

/-- A read on the empty channel `open_out` returns 0 and rings nothing; a read
after one 3-byte write returns 3 and rings the read bit once. -/
theorem mif_stream_read_peek_complete_doorbell_witness :
    open_out.2.1.mx = some mx0 ∧
    mif_stream_read fifo_ops cfg0 open_out.2.1 open_out.2.2 64 =
      some (0, (fifo_ops.cpacketbuffer_read open_out.2.1.buffer 64).2.1,
        { open_out.2.1 with
          buffer := (fifo_ops.cpacketbuffer_read open_out.2.1.buffer 64).2.2 },
        { open_out.2.2 with calls := open_out.2.2.calls ++ [Call.cpacketbuffer_read 64 0] }) ∧
    after_write.1.mx = some mx0 ∧
    (fifo_ops.cpacketbuffer_read after_write.1.buffer 64).1 = 3 ∧
    mif_stream_read fifo_ops cfg0 after_write.1 after_write.2 64 =
      some ((fifo_ops.cpacketbuffer_read after_write.1.buffer 64).1,
        (fifo_ops.cpacketbuffer_read after_write.1.buffer 64).2.1,
        { after_write.1 with
          buffer := (fifo_ops.cpacketbuffer_read after_write.1.buffer 64).2.2 },
        { after_write.2 with calls := after_write.2.calls ++
            [Call.cpacketbuffer_read 64 (fifo_ops.cpacketbuffer_read after_write.1.buffer 64).1,
             Call.irq_bit_set after_write.1.read_bit_idx (irq_target cfg0 after_write.1)] }) :=
  ⟨by decide,
   (mif_stream_read_peek_complete_doorbell fifo_ops cfg0 open_out.2.1 open_out.2.2 64 none mx0
      (by decide)).1 (by decide),
   by decide, by decide,
   (mif_stream_read_peek_complete_doorbell fifo_ops cfg0 after_write.1 after_write.2 64 none mx0
      (by decide)).2.1 (by decide)⟩

/-- C7 fails for `mif_stream_peek_complete`: on the freshly opened, empty
channel `open_in`, completing the NULL packet consumes nothing (no packet was
pending before, none after), and the read-completion doorbell is rung all the
same. -/
theorem mif_stream_peek_complete_rings_without_consuming :
    open_in.1 = 0 ∧ open_in.2.1.mx = some mx0 ∧ open_in.2.1.buffer.priv.packets = [] ∧
    (mif_stream_peek_complete fifo_ops cfg1 open_in.2.1 open_in.2.2 none).map
        (fun x => (x.1.buffer.priv.packets, x.2.calls)) =
      some ([], open_in.2.2.calls ++
        [Call.cpacketbuffer_peek_complete none,
         Call.irq_bit_set open_in.2.1.read_bit_idx SCSC_MIF_ABS_TARGET_WPAN]) := by
  decide

/-! ## The reserved bit (C8) -/

/-- C8, as the code has it: when the packet buffer and the toward-host bit
were acquired and the reserved index is a valid (non-negative) index, a channel
opened with `MIF_STREAM_INTRBIT_TYPE_RESERVED`, for every target, gets the
reserved index as its toward-remote bit (`write_bit_idx` when outbound,
`read_bit_idx` when inbound) and the open makes no toward-remote allocation
call.  `mif_stream_release` of that channel calls `mifintrbit_free_fromhost`
once with the reserved index, and so does the unrecognised-direction error path
of `mif_stream_init`, just as for a dynamically allocated bit. -/
theorem mif_stream_reserved_bit {β : Type} (E : cpacketbuffer_ops β) (cfg : Config)
    (stream : mif_stream β) (w : World) (target : scsc_mif_abs_target)
    (direction : MIF_STREAM_DIRECTION) (num_packets packet_size : Nat) (mx : scsc_mx)
    (handler data : Nat)
    (hbuf : (E.cpacketbuffer_init (set_buffer_target cfg stream target).buffer
      num_packets packet_size mx).1 = 0)
    (hr1 : 0 ≤ init_r1 cfg w target)
    (hres : 0 ≤ cfg.MIFINTRBIT_RESERVED_PANIC_WLAN) :
    (direction = MIF_STREAM_DIRECTION_OUT →
      (mif_stream_init E cfg stream w target direction num_packets packet_size mx
        MIF_STREAM_INTRBIT_TYPE_RESERVED handler data).1 = 0 ∧
      (mif_stream_init E cfg stream w target direction num_packets packet_size mx
        MIF_STREAM_INTRBIT_TYPE_RESERVED handler data).2.1.write_bit_idx =
          cfg.MIFINTRBIT_RESERVED_PANIC_WLAN ∧
      (mif_stream_init E cfg stream w target direction num_packets packet_size mx
        MIF_STREAM_INTRBIT_TYPE_RESERVED handler data).2.2.calls =
        w.calls ++
          [Call.cpacketbuffer_init num_packets packet_size 0,
           Call.mifintrbit_alloc_tohost (select_intr cfg target) handler data
             (init_r1 cfg w target)]) ∧
    (direction = MIF_STREAM_DIRECTION_IN →
      (mif_stream_init E cfg stream w target direction num_packets packet_size mx
        MIF_STREAM_INTRBIT_TYPE_RESERVED handler data).1 = 0 ∧
      (mif_stream_init E cfg stream w target direction num_packets packet_size mx
        MIF_STREAM_INTRBIT_TYPE_RESERVED handler data).2.1.read_bit_idx =
          cfg.MIFINTRBIT_RESERVED_PANIC_WLAN ∧
      (mif_stream_init E cfg stream w target direction num_packets packet_size mx
        MIF_STREAM_INTRBIT_TYPE_RESERVED handler data).2.2.calls =
        w.calls ++
          [Call.cpacketbuffer_init num_packets packet_size 0,
           Call.mifintrbit_alloc_tohost (select_intr cfg target) handler data
             (init_r1 cfg w target),
           Call.memset 0xff ((num_packets * packet_size) % 2 ^ 32), Call.smp_wmb]) ∧
    ((direction = MIF_STREAM_DIRECTION_OUT ∨ direction = MIF_STREAM_DIRECTION_IN) →
      (mif_stream_release E cfg
        (mif_stream_init E cfg stream w target direction num_packets packet_size mx
          MIF_STREAM_INTRBIT_TYPE_RESERVED handler data).2.1
        (mif_stream_init E cfg stream w target direction num_packets packet_size mx
          MIF_STREAM_INTRBIT_TYPE_RESERVED handler data).2.2).2.calls =
        (mif_stream_init E cfg stream w target direction num_packets packet_size mx
          MIF_STREAM_INTRBIT_TYPE_RESERVED handler data).2.2.calls ++
          [Call.mifintrbit_free_tohost (select_intr cfg target) (init_r1 cfg w target),
           Call.mifintrbit_free_fromhost (select_intr cfg target)
             cfg.MIFINTRBIT_RESERVED_PANIC_WLAN (fromhost_target cfg target),
           Call.cpacketbuffer_release]) ∧
    (∀ v, direction = unrecognised v →
      (mif_stream_init E cfg stream w target direction num_packets packet_size mx
        MIF_STREAM_INTRBIT_TYPE_RESERVED handler data).1 = -EINVAL ∧
      (mif_stream_init E cfg stream w target direction num_packets packet_size mx
        MIF_STREAM_INTRBIT_TYPE_RESERVED handler data).2.2.calls =
        w.calls ++
          [Call.cpacketbuffer_init num_packets packet_size 0,
           Call.mifintrbit_alloc_tohost (select_intr cfg target) handler data
             (init_r1 cfg w target),
           Call.cpacketbuffer_release,
           Call.mifintrbit_free_tohost (select_intr cfg target) (init_r1 cfg w target),
           Call.mifintrbit_free_fromhost (select_intr cfg target)
             cfg.MIFINTRBIT_RESERVED_PANIC_WLAN (fromhost_target cfg target)]) := by
  have hsel : ∀ s : mif_stream β,
      select_intr cfg (set_stream_target cfg s target).target = select_intr cfg target := by
    intro s; unfold set_stream_target select_intr; split_ifs <;> rfl
  have hmx : ∀ s : mif_stream β, (set_stream_target cfg s target).mx = s.mx := by
    intro s; unfold set_stream_target; split_ifs <;> rfl
  have h2 : ¬ (mifintrbit_alloc_tohost (w.log (Call.cpacketbuffer_init num_packets packet_size 0))
      (select_intr cfg target) handler data).1 < 0 := by
    have : (mifintrbit_alloc_tohost (w.log (Call.cpacketbuffer_init num_packets packet_size 0))
      (select_intr cfg target) handler data).1 = init_r1 cfg w target := by
      unfold mifintrbit_alloc_tohost init_r1; cases select_intr cfg target <;> rfl
    rw [this]; omega
  have h3 : ¬ reserved_bit cfg target < 0 := by rw [reserved_bit_eq]; omega
  unfold mif_stream_init
  simp only [hbuf, ne_eq, not_true_eq_false, if_false, h2, h3, if_true]
  generalize hi : select_intr cfg target = i at *
  generalize hk : fromhost_target cfg target = k at *
  obtain ⟨wl, wp, cs⟩ := w
  obtain ⟨th, fh⟩ := wl
  obtain ⟨th2, fh2⟩ := wp
  cases direction <;> simp only [mif_stream_release, hmx, hsel, init_r1, hi, hk] <;>
    cases i <;>
      simp [mifintrbit_alloc_tohost, mifintrbit_free_tohost, mifintrbit_alloc_fromhost,
        mifintrbit_free_fromhost, World.log, World.intr, World.set_intr, reserved_bit_eq]

/-- The channel `open_reserved` opens with the reserved index 0 as its write
bit, with one allocator call (the toward-host one). -/
theorem mif_stream_reserved_bit_witness :
    (fifo_ops.cpacketbuffer_init (set_buffer_target cfg0 zero_stream
      SCSC_MIF_ABS_TARGET_FXM_1).buffer 4 64 mx0).1 = 0 ∧
    0 ≤ init_r1 cfg0 world0 SCSC_MIF_ABS_TARGET_FXM_1 ∧
    0 ≤ cfg0.MIFINTRBIT_RESERVED_PANIC_WLAN ∧
    open_reserved.1 = 0 ∧
    open_reserved.2.1.write_bit_idx = cfg0.MIFINTRBIT_RESERVED_PANIC_WLAN ∧
    open_reserved.2.2.calls =
      world0.calls ++
        [Call.cpacketbuffer_init 4 64 0,
         Call.mifintrbit_alloc_tohost (select_intr cfg0 SCSC_MIF_ABS_TARGET_FXM_1) 7 8
           (init_r1 cfg0 world0 SCSC_MIF_ABS_TARGET_FXM_1)] :=
  ⟨by decide, by decide, by decide,
   (mif_stream_reserved_bit fifo_ops cfg0 zero_stream world0 SCSC_MIF_ABS_TARGET_FXM_1
      MIF_STREAM_DIRECTION_OUT 4 64 mx0 7 8 (by decide) (by decide) (by decide)).1 rfl⟩

/-- C8 fails on the free calls: closing the channel `open_reserved` calls
`mifintrbit_free_fromhost` with the reserved index it holds as write bit, and
the unrecognised-direction error path of the open `bad_direction_reserved`
calls it with the reserved index as well. -/
theorem mif_stream_release_frees_reserved_bit :
    open_reserved.1 = 0 ∧
    open_reserved.2.1.write_bit_idx = cfg0.MIFINTRBIT_RESERVED_PANIC_WLAN ∧
    (mif_stream_release fifo_ops cfg0 open_reserved.2.1 open_reserved.2.2).2.calls =
      open_reserved.2.2.calls ++
        [Call.mifintrbit_free_tohost intr_instance.wlan 1,
         Call.mifintrbit_free_fromhost intr_instance.wlan cfg0.MIFINTRBIT_RESERVED_PANIC_WLAN
           (some SCSC_MIF_ABS_TARGET_FXM_1),
         Call.cpacketbuffer_release] ∧
    bad_direction_reserved.1 = -EINVAL ∧
    Call.mifintrbit_free_fromhost intr_instance.wpan cfg1.MIFINTRBIT_RESERVED_PANIC_WLAN none ∈
      bad_direction_reserved.2.2.calls := by
  decide

/-! ## Scatter-gather write (C9) -/

/-- C9: when `stream->mx` or `stream->buffer.mx` is NULL,
`mif_stream_write_gather` returns false with the stream and the world
unchanged (no `cpacketbuffer_write_gather`, no `irq_bit_set`).  On a live
channel it calls `cpacketbuffer_write_gather`; if that fails it returns false
with no `irq_bit_set`, if that succeeds it returns true after exactly one
`irq_bit_set` with `write_bit_idx`. -/
theorem mif_stream_write_gather_guard {β : Type} (E : cpacketbuffer_ops β) (cfg : Config)
    (stream : mif_stream β) (w : World) (bufs : List (List Nat)) (lengths : List Nat)
    (num_bufs : Nat) :
    ((stream.mx = none ∨ stream.buffer.mx = none) →
      mif_stream_write_gather E cfg stream w bufs lengths num_bufs = (false, stream, w)) ∧
    ((stream.mx ≠ none ∧ stream.buffer.mx ≠ none) →
      ((E.cpacketbuffer_write_gather stream.buffer bufs lengths num_bufs).1 = false →
        mif_stream_write_gather E cfg stream w bufs lengths num_bufs =
          (false,
            { stream with
              buffer := (E.cpacketbuffer_write_gather stream.buffer bufs lengths num_bufs).2 },
            { w with calls := w.calls ++ [Call.cpacketbuffer_write_gather num_bufs false] })) ∧
      ((E.cpacketbuffer_write_gather stream.buffer bufs lengths num_bufs).1 = true →
        mif_stream_write_gather E cfg stream w bufs lengths num_bufs =
          (true,
            { stream with
              buffer := (E.cpacketbuffer_write_gather stream.buffer bufs lengths num_bufs).2 },
            { w with calls := w.calls ++
                [Call.cpacketbuffer_write_gather num_bufs true,
                 Call.irq_bit_set stream.write_bit_idx (irq_target cfg stream)] }))) := by
  unfold mif_stream_write_gather
  constructor
  · intro h
    rw [if_pos h]
  · intro h
    have h' : ¬ (stream.mx = none ∨ stream.buffer.mx = none) := by
      intro hc
      cases hc with
      | inl a => exact h.1 a
      | inr b => exact h.2 b
    rw [if_neg h']
    constructor
    · intro hg
      simp [hg, World.log]
    · intro hg
      simp [hg, World.log]

/-- Evaluation of the three cases of `mif_stream_write_gather`: a stream that
never opened, and on the channel `open_out` a gather of 2 + 1 bytes (stored,
one doorbell) and a gather of 65 bytes (refused, no doorbell). -/
theorem mif_stream_write_gather_examples :
    (mif_stream_write_gather fifo_ops cfg0 zero_stream world0 [[1, 2], [3]] [2, 1] 2).1 = false ∧
    (mif_stream_write_gather fifo_ops cfg0 zero_stream world0 [[1, 2], [3]] [2, 1] 2).2.2.calls
      = [] ∧
    (mif_stream_write_gather fifo_ops cfg0 open_out.2.1 open_out.2.2 [[1, 2], [3]] [2, 1] 2).1
      = true ∧
    (mif_stream_write_gather fifo_ops cfg0 open_out.2.1 open_out.2.2
        [[1, 2], [3]] [2, 1] 2).2.2.calls =
      open_out.2.2.calls ++
        [Call.cpacketbuffer_write_gather 2 true, Call.irq_bit_set 1 (other 0)] ∧
    (mif_stream_write_gather fifo_ops cfg0 open_out.2.1 open_out.2.2
        [[1, 2], [3]] [2, 1] 2).2.1.buffer.priv.packets = [[1, 2, 3]] ∧
    (mif_stream_write_gather fifo_ops cfg0 open_out.2.1 open_out.2.2
        [List.replicate 65 0] [65] 1).2.2.calls =
      open_out.2.2.calls ++ [Call.cpacketbuffer_write_gather 1 false] := by
  decide

/-! ## Poison fill of an inbound buffer (C10) -/

end MifStream
